import Mathlib

/-!
Verification development for the Odoo MCP server's transport and
query-normalization layer (src/odoo_mcp/odoo_client.py and
src/odoo_mcp/server.py), as a shallow embedding in Lean 4.

The embedding covers:
  * the dynamically-typed Python values flowing through the filter
    normalizer (`PyVal`),
  * the domain/filter normalization block of `execute_method`
    (server.py lines 277-366), including models of `json.loads` and
    `ast.literal_eval` on the fragment relevant to filters,
  * the redirect retry loop of `RedirectTransport.request`
    (odoo_client.py lines 309-333),
  * URL normalization, authentication and call forwarding of
    `OdooClient` (odoo_client.py lines 36-121, 239-252).

Floating-point literals are outside the embedding: JSON/Python numbers
are modelled as integers (no claim involves a float, and the normalizer
never inspects numeric values beyond `isinstance` checks that floats
also fail).
-/

/-- Model of the dynamically-typed Python values that can reach the
filter normalizer: `None`, booleans, integers, strings, lists, tuples
and string-keyed dictionaries (the shapes producible by the MCP JSON
layer, `json.loads` and `ast.literal_eval` on the filter fragment). -/
inductive PyVal where
  | none
  | bool (b : Bool)
  | int (n : Int)
  | str (s : String)
  | list (xs : List PyVal)
  | tuple (xs : List PyVal)
  | dict (kvs : List (String × PyVal))

/-- Python exceptions that the normalizer block can raise: iterating a
non-iterable value (`for cond in conditions` with e.g. an int) raises
`TypeError`. -/
inductive PyErr where
  | typeError
deriving DecidableEq

/-- Python dictionary lookup `d[k]` / membership `k in d` on a
string-keyed dict represented as an association list; a later binding
for the same key shadows an earlier one (last write wins, as for a
Python dict built left to right). -/
def pyGet (kvs : List (String × PyVal)) (k : String) : Option PyVal :=
  kvs.foldl (fun acc kv => if kv.1 = k then some kv.2 else acc) Option.none

/-- Python truthiness (`bool(x)`): `None`, `False`, `0`, empty strings
and empty containers are falsy, everything else is truthy. -/
def pyTruthy : PyVal → Bool
  | PyVal.none => false
  | PyVal.bool b => b
  | PyVal.int n => n != 0
  | PyVal.str s => !s.isEmpty
  | PyVal.list xs => !xs.isEmpty
  | PyVal.tuple xs => !xs.isEmpty
  | PyVal.dict kvs => !kvs.isEmpty

/-- Python iteration `for x in v`: lists and tuples yield their
elements, strings yield their characters (as length-1 strings), dicts
yield their keys; `None`, booleans and integers raise `TypeError`. -/
def pyIter : PyVal → Except PyErr (List PyVal)
  | PyVal.list xs => Except.ok xs
  | PyVal.tuple xs => Except.ok xs
  | PyVal.str s => Except.ok (s.data.map (fun c => PyVal.str (String.mk [c])))
  | PyVal.dict kvs => Except.ok (kvs.map (fun kv => PyVal.str kv.1))
  | _ => Except.error PyErr.typeError

/-- Whether `for x in v` succeeds (v is a list, tuple, string or dict). -/
def iterablePy : PyVal → Bool
  | PyVal.list _ => true
  | PyVal.tuple _ => true
  | PyVal.str _ => true
  | PyVal.dict _ => true
  | _ => false

/-- The check `isinstance(cond, str) and cond in ["&", "|", "!"]` of the
final validation pass: a logical-operator marker. -/
def isMarker : PyVal → Bool
  | PyVal.str s => s = "&" || s = "|" || s = "!"
  | _ => false

/-- The check `isinstance(cond, list) and len(cond) == 3 and
isinstance(cond[0], str) and isinstance(cond[1], str)` of the final
validation pass: a well-formed (field, operator, value) triple. -/
def isValidCond : PyVal → Bool
  | PyVal.list [PyVal.str _, PyVal.str _, _] => true
  | _ => false

/-- `isinstance(item, list)`. -/
def isPyList : PyVal → Bool
  | PyVal.list _ => true
  | _ => false

/-- An element of a canonical filter expression: a logical-operator
marker or a 3-element list whose first two elements are strings. -/
def canonicalElem (e : PyVal) : Bool :=
  isMarker e || isValidCond e

/-! ### Model of `json.loads` on the filter fragment

A strict JSON parser producing `PyVal`, faithful to `json.loads` on
JSON text made of objects, arrays, double-quoted strings (with the
common escapes), integers, `true`, `false` and `null`.  Fuel-indexed
recursion; `jsonParse` supplies enough fuel for its input. -/

/-- JSON insignificant whitespace. -/
def isJsonWs (c : Char) : Bool :=
  c == ' ' || c == '\t' || c == '\n' || c == '\r'

/-- Drop leading JSON whitespace. -/
def skipWs : List Char → List Char
  | c :: cs => if isJsonWs c then skipWs cs else c :: cs
  | [] => []

/-- ASCII decimal digit test. -/
def isDigitCh (c : Char) : Bool := '0' ≤ c && c ≤ '9'

/-- Split a leading run of decimal digits from the rest. -/
def takeDigits : List Char → List Char × List Char
  | c :: cs =>
    if isDigitCh c then
      let p := takeDigits cs
      (c :: p.1, p.2)
    else ([], c :: cs)
  | [] => ([], [])

/-- Numeric value of a digit run. -/
def digitsToNat (ds : List Char) : Nat :=
  ds.foldl (fun a c => a * 10 + (c.toNat - '0'.toNat)) 0

/-- After an integer part, a following '.', 'e' or 'E' would make the
number a float, which the embedding does not model; such inputs fail to
parse. -/
def floatFollows : List Char → Bool
  | c :: _ => c == '.' || c == 'e' || c == 'E'
  | [] => false

/-- Body of a double-quoted JSON string after the opening quote, with
the accumulated characters reversed in `acc`. -/
def jsonStrLoop : List Char → List Char → Option (String × List Char)
  | acc, '"' :: r => some (String.mk acc.reverse, r)
  | acc, '\\' :: e :: r =>
    (match e with
     | '"' => some '"'
     | '\\' => some '\\'
     | '/' => some '/'
     | 'n' => some '\n'
     | 't' => some '\t'
     | 'r' => some '\r'
     | 'b' => some (Char.ofNat 8)
     | 'f' => some (Char.ofNat 12)
     | _ => Option.none).bind (fun c => jsonStrLoop (c :: acc) r)
  | acc, c :: r => if c == '\\' then Option.none else jsonStrLoop (c :: acc) r
  | _, [] => Option.none

mutual

/-- One JSON value, returning the remaining input. -/
def jsonVal : Nat → List Char → Option (PyVal × List Char)
  | 0, _ => Option.none
  | fuel + 1, cs =>
    match skipWs cs with
    | [] => Option.none
    | c :: rest =>
      if c == 'n' then
        match rest with
        | 'u' :: 'l' :: 'l' :: r => some (PyVal.none, r)
        | _ => Option.none
      else if c == 't' then
        match rest with
        | 'r' :: 'u' :: 'e' :: r => some (PyVal.bool true, r)
        | _ => Option.none
      else if c == 'f' then
        match rest with
        | 'a' :: 'l' :: 's' :: 'e' :: r => some (PyVal.bool false, r)
        | _ => Option.none
      else if c == '"' then
        (jsonStrLoop [] rest).map (fun p => (PyVal.str p.1, p.2))
      else if c == '[' then
        match skipWs rest with
        | ']' :: r => some (PyVal.list [], r)
        | r => (jsonArr fuel r).map (fun p => (PyVal.list p.1, p.2))
      else if c == '{' then
        match skipWs rest with
        | '}' :: r => some (PyVal.dict [], r)
        | r => (jsonObj fuel r).map (fun p => (PyVal.dict p.1, p.2))
      else if c == '-' then
        match takeDigits rest with
        | ([], _) => Option.none
        | (ds, r) =>
          if floatFollows r then Option.none
          else some (PyVal.int (-(digitsToNat ds : Int)), r)
      else if isDigitCh c then
        match takeDigits (c :: rest) with
        | (ds, r) =>
          if floatFollows r then Option.none
          else some (PyVal.int (digitsToNat ds), r)
      else Option.none

/-- Elements of a nonempty JSON array, after the opening bracket. -/
def jsonArr : Nat → List Char → Option (List PyVal × List Char)
  | 0, _ => Option.none
  | fuel + 1, cs =>
    match jsonVal fuel cs with
    | Option.none => Option.none
    | some (v, r) =>
      match skipWs r with
      | ',' :: r2 => (jsonArr fuel r2).map (fun p => (v :: p.1, p.2))
      | ']' :: r2 => some ([v], r2)
      | _ => Option.none

/-- Members of a nonempty JSON object, after the opening brace. -/
def jsonObj : Nat → List Char → Option (List (String × PyVal) × List Char)
  | 0, _ => Option.none
  | fuel + 1, cs =>
    match skipWs cs with
    | '"' :: r =>
      match jsonStrLoop [] r with
      | Option.none => Option.none
      | some (k, r2) =>
        match skipWs r2 with
        | ':' :: r3 =>
          match jsonVal fuel r3 with
          | Option.none => Option.none
          | some (v, r4) =>
            match skipWs r4 with
            | ',' :: r5 => (jsonObj fuel r5).map (fun p => ((k, v) :: p.1, p.2))
            | '}' :: r5 => some ([(k, v)], r5)
            | _ => Option.none
        | _ => Option.none
    | _ => Option.none

end

/-- Model of `json.loads`: parse the entire string as one JSON value
(only surrounding whitespace allowed); `Option.none` stands for
`json.JSONDecodeError`. -/
def jsonParse (s : String) : Option PyVal :=
  match jsonVal (2 * s.length + 2) s.data with
  | some (v, r) => if (skipWs r).isEmpty then some v else Option.none
  | Option.none => Option.none

/-! ### Model of `ast.literal_eval` on the filter fragment

A parser for Python literal syntax producing `PyVal`, faithful to
`ast.literal_eval` on literals made of lists, tuples, string-keyed
dicts, single- or double-quoted strings, integers, `True`, `False` and
`None` (the shapes a caller stringifying a filter can produce).
`Option.none` stands for any exception raised by the call, which the
source catches with a bare `except`. -/

/-- Body of a quoted Python string literal after the opening quote
character `q`, accumulated characters reversed in `acc`. -/
def pyStrLoop (q : Char) : List Char → List Char → Option (String × List Char)
  | acc, '\\' :: e :: r =>
    (match e with
     | '\'' => some '\''
     | '"' => some '"'
     | '\\' => some '\\'
     | 'n' => some '\n'
     | 't' => some '\t'
     | 'r' => some '\r'
     | _ => Option.none).bind (fun c => pyStrLoop q (c :: acc) r)
  | acc, c :: r =>
    if c == q then some (String.mk acc.reverse, r)
    else if c == '\\' then Option.none
    else pyStrLoop q (c :: acc) r
  | _, [] => Option.none

mutual

/-- One Python literal, returning the remaining input.  A parenthesized
single value without a trailing comma is that value itself, not a
tuple, as in Python. -/
def astVal : Nat → List Char → Option (PyVal × List Char)
  | 0, _ => Option.none
  | fuel + 1, cs =>
    match skipWs cs with
    | [] => Option.none
    | c :: rest =>
      if c == 'N' then
        match rest with
        | 'o' :: 'n' :: 'e' :: r => some (PyVal.none, r)
        | _ => Option.none
      else if c == 'T' then
        match rest with
        | 'r' :: 'u' :: 'e' :: r => some (PyVal.bool true, r)
        | _ => Option.none
      else if c == 'F' then
        match rest with
        | 'a' :: 'l' :: 's' :: 'e' :: r => some (PyVal.bool false, r)
        | _ => Option.none
      else if c == '\'' then
        (pyStrLoop '\'' [] rest).map (fun p => (PyVal.str p.1, p.2))
      else if c == '"' then
        (pyStrLoop '"' [] rest).map (fun p => (PyVal.str p.1, p.2))
      else if c == '[' then
        match skipWs rest with
        | ']' :: r => some (PyVal.list [], r)
        | r => (astListTail fuel r).map (fun p => (PyVal.list p.1, p.2))
      else if c == '(' then
        match skipWs rest with
        | ')' :: r => some (PyVal.tuple [], r)
        | r =>
          match astVal fuel r with
          | Option.none => Option.none
          | some (v, r2) =>
            match skipWs r2 with
            | ')' :: r3 => some (v, r3)
            | ',' :: r3 =>
              (astTupleTail fuel r3).map (fun p => (PyVal.tuple (v :: p.1), p.2))
            | _ => Option.none
      else if c == '{' then
        match skipWs rest with
        | '}' :: r => some (PyVal.dict [], r)
        | r => (astDictTail fuel r).map (fun p => (PyVal.dict p.1, p.2))
      else if c == '-' then
        match takeDigits rest with
        | ([], _) => Option.none
        | (ds, r) =>
          if floatFollows r then Option.none
          else some (PyVal.int (-(digitsToNat ds : Int)), r)
      else if isDigitCh c then
        match takeDigits (c :: rest) with
        | (ds, r) =>
          if floatFollows r then Option.none
          else some (PyVal.int (digitsToNat ds), r)
      else Option.none

/-- Elements of a nonempty Python list literal, after the bracket. -/
def astListTail : Nat → List Char → Option (List PyVal × List Char)
  | 0, _ => Option.none
  | fuel + 1, cs =>
    match astVal fuel cs with
    | Option.none => Option.none
    | some (v, r) =>
      match skipWs r with
      | ',' :: r2 =>
        match skipWs r2 with
        | ']' :: r3 => some ([v], r3)
        | r3 => (astListTail fuel r3).map (fun p => (v :: p.1, p.2))
      | ']' :: r2 => some ([v], r2)
      | _ => Option.none

/-- Remaining elements of a tuple literal after the first comma;
handles the trailing-comma form `(v,)`. -/
def astTupleTail : Nat → List Char → Option (List PyVal × List Char)
  | 0, _ => Option.none
  | fuel + 1, cs =>
    match skipWs cs with
    | ')' :: r => some ([], r)
    | cs2 =>
      match astVal fuel cs2 with
      | Option.none => Option.none
      | some (v, r) =>
        match skipWs r with
        | ',' :: r2 => (astTupleTail fuel r2).map (fun p => (v :: p.1, p.2))
        | ')' :: r2 => some ([v], r2)
        | _ => Option.none

/-- Members of a nonempty string-keyed Python dict literal. -/
def astDictTail : Nat → List Char → Option (List (String × PyVal) × List Char)
  | 0, _ => Option.none
  | fuel + 1, cs =>
    match astVal fuel cs with
    | some (PyVal.str k, r) =>
      match skipWs r with
      | ':' :: r2 =>
        match astVal fuel r2 with
        | Option.none => Option.none
        | some (v, r3) =>
          match skipWs r3 with
          | ',' :: r4 =>
            match skipWs r4 with
            | '}' :: r5 => some ([(k, v)], r5)
            | r5 => (astDictTail fuel r5).map (fun p => ((k, v) :: p.1, p.2))
          | '}' :: r4 => some ([(k, v)], r4)
          | _ => Option.none
      | _ => Option.none
    | _ => Option.none

end

/-- Model of `ast.literal_eval` on the filter fragment: parse the whole
string as one Python literal. -/
def astLiteralEval (s : String) : Option PyVal :=
  match astVal (2 * s.length + 2) s.data with
  | some (v, r) => if (skipWs r).isEmpty then some v else Option.none
  | Option.none => Option.none

/-! ### The filter normalizer

Shallow embedding of the domain-normalization block of `execute_method`
(server.py lines 277-366).  The raw first argument of a filtering
method (`search`, `search_count`, `search_read`) is a `PyVal`; the
block produces the normalized `domain_list` or raises `TypeError` when
it iterates a non-iterable `conditions` value. -/

/-- Lines 283-289: if the domain is a single-element list whose sole
element is itself a list, unwrap one level (`[[domain]] -> [domain]`). -/
def unwrapDomain (d : PyVal) : PyVal :=
  match d with
  | PyVal.list xs =>
    match xs with
    | [x] => if isPyList x then x else PyVal.list xs
    | _ => PyVal.list xs
  | d => d

/-- Lines 296-305 / 321-333: read an object-form `conditions` sequence;
each condition supplying the keys `field`, `operator` and `value`
contributes the list `[cond["field"], cond["operator"], cond["value"]]`
and every other element is silently dropped. -/
def extractConditions : List PyVal → List PyVal
  | [] => []
  | PyVal.dict kvs :: rest =>
    match pyGet kvs "field", pyGet kvs "operator", pyGet kvs "value" with
    | some f, some o, some v => PyVal.list [f, o, v] :: extractConditions rest
    | _, _, _ => extractConditions rest
  | _ :: rest => extractConditions rest

/-- `xs[0]` is a string (`isinstance(domain[0], str)` on a nonempty
list). -/
def headIsStr : List PyVal → Bool
  | PyVal.str _ :: _ => true
  | _ => false

/-- Lines 292-344: the type dispatch over the (already unwrapped)
domain.  `None` gives the empty list; a dict is read through its
`conditions` key (iterating a non-iterable value raises `TypeError`);
a list is passed through when every element is a list or any element is
a logical-operator marker, a bare `[field, operator, value]` triple is
wrapped, and anything else gives the empty list; a string is parsed
with `json.loads` first and `ast.literal_eval` second, a parsed dict
being read like the dict case, a parsed list being taken as the domain
as-is, and everything else (including both parses failing) giving the
empty list.  Inputs of any other type give the empty list. -/
def dispatchDomain : PyVal → Except PyErr (List PyVal)
  | PyVal.none => Except.ok []
  | PyVal.dict kvs =>
    match pyGet kvs "conditions" with
    | some conds => (pyIter conds).map extractConditions
    | Option.none => Except.ok []
  | PyVal.list xs =>
    if xs.isEmpty then Except.ok []
    else if xs.all isPyList || xs.any isMarker then Except.ok xs
    else if 3 ≤ xs.length && headIsStr xs then Except.ok [PyVal.list xs]
    else Except.ok []
  | PyVal.str s =>
    match jsonParse s with
    | some (PyVal.dict kvs) =>
      match pyGet kvs "conditions" with
      | some conds => (pyIter conds).map extractConditions
      | Option.none => Except.ok []
    | some (PyVal.list xs) => Except.ok xs
    | some _ => Except.ok []
    | Option.none =>
      match astLiteralEval s with
      | some (PyVal.list xs) => Except.ok xs
      | _ => Except.ok []
  | _ => Except.ok []

/-- Lines 346-362: the final validation pass.  Run only on a truthy
(nonempty) `domain_list`; keeps logical-operator markers and 3-element
lists whose first two elements are strings, drops everything else. -/
def validateDomain (l : List PyVal) : List PyVal :=
  if l.isEmpty then l
  else l.filter (fun c => isMarker c || isValidCond c)

/-- The whole normalization block applied to the raw first argument of
a filtering method: unwrap, dispatch on type, then the final validation
pass.  An `Except.error` is a Python exception escaping the block. -/
def normalizeDomain (d : PyVal) : Except PyErr (List PyVal) :=
  (dispatchDomain (unwrapDomain d)).map validateDomain

/-- The inputs on which the normalization block raises no exception:
everything except a dict (given directly, or decoded from a strict-JSON
string) whose `conditions` value is not iterable. -/
def condOk (d : PyVal) : Bool :=
  match d with
  | PyVal.dict kvs =>
    match pyGet kvs "conditions" with
    | some c => iterablePy c
    | Option.none => true
  | PyVal.str s =>
    match jsonParse s with
    | some (PyVal.dict kvs) =>
      match pyGet kvs "conditions" with
      | some c => iterablePy c
      | Option.none => true
    | _ => true
  | _ => true

/-- Whether an expression avoids the one-element-list unwrap pitfall: a
sole triple element may not contain a logical-operator marker string
among its components (otherwise the unwrap plus the marker test mangle
it). -/
def soleTripleNoMarker : List PyVal → Bool
  | [PyVal.list xs] => xs.all (fun x => !isMarker x)
  | _ => true

/-- Success test for the normalization block (no exception escaped). -/
def normOk : Except PyErr (List PyVal) → Bool
  | Except.ok _ => true
  | Except.error _ => false

/-! ### The redirect-aware transport

Shallow embedding of `RedirectTransport.request` (odoo_client.py lines
309-333).  A single underlying HTTP attempt is abstracted as a function
from the attempt number to its outcome; the loop follows redirects
while `redirects < max_redirects` and raises `ProtocolError(310, "Too
many redirects")` when the bound is reached.  The host/handler
rewriting of lines 319-325 only changes where the next attempt is sent,
which the attempt-indexed server function absorbs; it does not affect
the attempt count or the failure kind. -/

/-- Outcome of one underlying `Transport.request` attempt: a successful
response, an `xmlrpc.client.ProtocolError` with a status code and the
value of its `location` header, or any other exception. -/
inductive HttpAttemptOutcome where
  | success (v : PyVal)
  | protocolError (code : Nat) (location : Option String)
  | otherError (msg : String)

/-- Result of the full redirect-following request: a response, a
re-raised `ProtocolError`, the `TooManyRedirects` failure (itself a
`ProtocolError` with code 310 in the source), or a re-raised other
exception. -/
inductive RequestResult where
  | ok (v : PyVal)
  | protocolFailure (code : Nat)
  | tooManyRedirects
  | failed (msg : String)

/-- `err.errcode in (301, 302, 303, 307, 308)`. -/
def isRedirectCode (c : Nat) : Bool :=
  c == 301 || c == 302 || c == 303 || c == 307 || c == 308

/-- Truthiness of `err.headers.get('location')`: present and nonempty. -/
def locationTruthy : Option String → Bool
  | some s => !s.isEmpty
  | Option.none => false

/-- The `while redirects < self.max_redirects` loop, with
`fuel = max_redirects - redirects` and the number of attempts made so
far.  Returns the total number of attempts together with the result. -/
def requestGo (server : Nat → HttpAttemptOutcome) : Nat → Nat → Nat × RequestResult
  | 0, attempts => (attempts, RequestResult.tooManyRedirects)
  | fuel + 1, attempts =>
    match server attempts with
    | HttpAttemptOutcome.success v => (attempts + 1, RequestResult.ok v)
    | HttpAttemptOutcome.otherError m => (attempts + 1, RequestResult.failed m)
    | HttpAttemptOutcome.protocolError c loc =>
      if isRedirectCode c && locationTruthy loc then
        requestGo server fuel (attempts + 1)
      else (attempts + 1, RequestResult.protocolFailure c)

/-- The `max_redirects=5` default of `RedirectTransport.__init__`,
which `OdooClient._connect` never overrides. -/
def RedirectTransport.defaultMaxRedirects : Nat := 5

/-- `RedirectTransport.request`: run the redirect loop from zero
follows and zero attempts. -/
def RedirectTransport.request (server : Nat → HttpAttemptOutcome)
    (maxRedirects : Nat) : Nat × RequestResult :=
  requestGo server maxRedirects 0

/-! ### The Odoo client

Shallow embedding of `OdooClient` (odoo_client.py): URL normalization
in `__init__` (lines 36-47), connection-kind selection in
`RedirectTransport.make_connection` (lines 298-307), the
authentication exchange of `_connect` (lines 64-94) and the call
forwarding of `_execute` / `execute_method` / `search_read` (lines
96-121 and 239-252).  The network is abstracted as a function from the
issued `execute_kw` call to its outcome. -/

/-- Prefix check on character lists (the only string prefix tests the
source performs: `re.match(r'^https?://', url)` and
`url.startswith('https://')`). -/
def leadsWith : List Char → List Char → Bool
  | [], _ => true
  | _ :: _, [] => false
  | p :: ps, c :: cs => p == c && leadsWith ps cs

/-- The characters of `http://`. -/
def httpPrefChars : List Char := ['h', 't', 't', 'p', ':', '/', '/']

/-- The characters of `https://`. -/
def httpsPrefChars : List Char := ['h', 't', 't', 'p', 's', ':', '/', '/']

/-- `re.match(r'^https?://', url)`: the URL already carries a plain or
TLS scheme. -/
def schemeMatch (url : String) : Bool :=
  leadsWith httpPrefChars url.data || leadsWith httpsPrefChars url.data

/-- Line 37-38: a URL without a scheme is prefixed with `http://`
(never `https://`). -/
def ensureScheme (url : String) : String :=
  if schemeMatch url then url else String.mk (httpPrefChars ++ url.data)

/-- A slash character. -/
def isSlash (c : Char) : Bool := c == '/'

/-- Remove every trailing slash from a character list. -/
def stripChars (l : List Char) : List Char :=
  ((l.reverse).dropWhile isSlash).reverse

/-- Line 41: `url.rstrip('/')`. -/
def stripTrailingSlashes (s : String) : String :=
  String.mk (stripChars s.data)

/-- The value stored in `self.url`: scheme ensured, trailing slashes
stripped. -/
def OdooClient.normalizedUrl (url : String) : String :=
  stripTrailingSlashes (ensureScheme url)

/-- Line 67: `is_https = self.url.startswith('https://')`. -/
def isHttpsUrl (url : String) : Bool :=
  leadsWith httpsPrefChars url.data

/-- Line 79: the authentication endpoint `self.url + "/xmlrpc/2/common"`. -/
def OdooClient.commonEndpoint (url : String) : String :=
  OdooClient.normalizedUrl url ++ "/xmlrpc/2/common"

/-- Line 80: the method-execution endpoint `self.url + "/xmlrpc/2/object"`. -/
def OdooClient.objectEndpoint (url : String) : String :=
  OdooClient.normalizedUrl url ++ "/xmlrpc/2/object"

/-- The connection a transport opens: TLS without certificate checks,
TLS, or plain text. -/
inductive ConnKind where
  | httpsNoVerify
  | https
  | http
deriving DecidableEq

/-- `RedirectTransport.make_connection` (lines 298-307): HTTPS with an
unverified context when `use_https and not verify_ssl`, HTTPS when
`use_https`, plain HTTP otherwise. -/
def makeConnection (useHttps verifySsl : Bool) : ConnKind :=
  if useHttps && !verifySsl then ConnKind.httpsNoVerify
  else if useHttps then ConnKind.https
  else ConnKind.http

/-- The Python exceptions relevant to `_connect`'s handlers: the
network family named in the first `except` clause
(`socket.error`, `socket.timeout`, `ConnectionError`, `TimeoutError`),
plus `xmlrpc.client.ProtocolError`, `ValueError` and a catch-all for
any other `Exception`. -/
inductive PyExc where
  | socketError (msg : String)
  | socketTimeout (msg : String)
  | connectionError (msg : String)
  | timeoutError (msg : String)
  | protocolError (code : Nat) (msg : String)
  | valueError (msg : String)
  | otherExc (msg : String)
deriving DecidableEq

/-- The exception's `str(e)`. -/
def PyExc.message : PyExc → String
  | PyExc.socketError m => m
  | PyExc.socketTimeout m => m
  | PyExc.connectionError m => m
  | PyExc.timeoutError m => m
  | PyExc.protocolError _ m => m
  | PyExc.valueError m => m
  | PyExc.otherExc m => m

/-- Membership in the tuple of the first `except` clause of `_connect`
(line 89): the network-layer exception classes. -/
def isNetworkExc : PyExc → Bool
  | PyExc.socketError _ => true
  | PyExc.socketTimeout _ => true
  | PyExc.connectionError _ => true
  | PyExc.timeoutError _ => true
  | _ => false

/-- The message of the `ValueError` raised on a falsy identity
(line 88). -/
def invalidCredsMsg : String :=
  "Authentication failed: Invalid username or password"

/-- Lines 84-94: the authentication exchange.  The argument is the
outcome of `self._common.authenticate(db, username, password, {})`.  A
falsy identity raises `ValueError(invalidCredsMsg)` inside the `try`,
which the catch-all `except Exception` handler immediately rewraps as
`ValueError("Failed to authenticate with Odoo: ...")`; a network-family
exception is remapped to `ConnectionError("Failed to connect to Odoo
server: ...")`; any other exception is remapped to
`ValueError("Failed to authenticate with Odoo: ...")`. -/
def OdooClient.connectAuth (authResult : Except PyExc PyVal) : Except PyExc PyVal :=
  match authResult with
  | Except.ok uid =>
    if pyTruthy uid then Except.ok uid
    else Except.error
      (PyExc.valueError ("Failed to authenticate with Odoo: " ++ invalidCredsMsg))
  | Except.error e =>
    if isNetworkExc e then
      Except.error (PyExc.connectionError ("Failed to connect to Odoo server: " ++ e.message))
    else
      Except.error (PyExc.valueError ("Failed to authenticate with Odoo: " ++ e.message))

/-- One `execute_kw` call against the object endpoint, with its
positional arguments in the order `_execute` passes them (line 104-106):
database, cached identity, cached credential, object type, method,
positional arguments, keyword arguments. -/
structure RemoteCall where
  db : String
  uid : PyVal
  password : String
  model : String
  method : String
  args : List PyVal
  kwargs : List (String × PyVal)

/-- Outcome of `OdooClient.__init__` / `_connect`: the identity stored
in `self.uid` or the escaping exception, together with the list of
`execute_kw` calls issued against the object endpoint during
construction.  `_connect` only creates the two `ServerProxy` objects
(no network traffic) and calls `authenticate` on the common endpoint,
so the object-endpoint call list is empty on every path. -/
structure InitOutcome where
  result : Except PyExc PyVal
  objectCalls : List RemoteCall

/-- Client construction: authenticate once; success stores the
identity, failure escapes; no object-endpoint call is issued either
way. -/
def OdooClient.initConnect (authResult : Except PyExc PyVal) : InitOutcome :=
  { result := OdooClient.connectAuth authResult, objectCalls := [] }

/-- The connection parameters `_execute` reads: `self.db`, `self.uid`
(cached by `_connect`) and `self.password`. -/
structure ClientState where
  db : String
  uid : PyVal
  password : String

/-- `OdooClient._execute` (lines 96-106): forward the call to
`self._models.execute_kw(self.db, self.uid, self.password, model,
method, args, kwargs)`.  The object endpoint is abstracted as the
function `server` from the issued call to its outcome. -/
def OdooClient.executeRPC (server : RemoteCall → Except PyExc PyVal)
    (c : ClientState) (model method : String)
    (args : List PyVal) (kwargs : List (String × PyVal)) : Except PyExc PyVal :=
  server { db := c.db, uid := c.uid, password := c.password,
           model := model, method := method, args := args, kwargs := kwargs }

/-- `OdooClient.execute_method` (lines 108-121): a bare call to
`self._execute(model, method, *args, **kwargs)` with no exception
handler around it and no context added. -/
def OdooClient.execute_method (server : RemoteCall → Except PyExc PyVal)
    (c : ClientState) (model method : String)
    (args : List PyVal) (kwargs : List (String × PyVal)) : Except PyExc PyVal :=
  OdooClient.executeRPC server c model method args kwargs

/-- The keyword dict `search_read` builds (lines 240-246): `offset`
always, then `fields`, `limit` and `order` when not `None`. -/
def searchReadKwargs (fields : Option PyVal) (offset : PyVal)
    (limit : Option PyVal) (order : Option PyVal) : List (String × PyVal) :=
  [("offset", offset)]
    ++ (match fields with | some f => [("fields", f)] | Option.none => [])
    ++ (match limit with | some l => [("limit", l)] | Option.none => [])
    ++ (match order with | some o => [("order", o)] | Option.none => [])

/-- `OdooClient.search_read` (lines 218-252): issue
`self._execute(model_name, 'search_read', domain, kwargs)` and return
its result; any exception is caught, logged and replaced by the empty
list. -/
def OdooClient.search_read (server : RemoteCall → Except PyExc PyVal)
    (c : ClientState) (model_name : String) (domain : PyVal)
    (fields : Option PyVal) (offset : PyVal) (limit : Option PyVal)
    (order : Option PyVal) : PyVal :=
  match OdooClient.executeRPC server c model_name "search_read"
      [domain, PyVal.dict (searchReadKwargs fields offset limit order)] [] with
  | Except.ok r => r
  | Except.error _ => PyVal.list []

/-! ### Helper lemmas -/

/-- Dropping a leading run of `p`-characters commutes with appending a
single non-`p` character. -/
lemma dropWhile_append_one (p : Char → Bool) (a : Char) (h : p a = false) :
    ∀ l : List Char, List.dropWhile p (l ++ [a]) = List.dropWhile p l ++ [a] := by
  intro l
  induction l with
  | nil => simp [List.dropWhile, h]
  | cons c cs ih =>
    by_cases hc : p c
    · simp [List.dropWhile, hc, ih]
    · simp [List.dropWhile, hc]

/-- Stripping trailing slashes leaves a leading non-slash character in
place. -/
lemma stripChars_cons (a : Char) (h : isSlash a = false) (cs : List Char) :
    stripChars (a :: cs) = a :: stripChars cs := by
  simp [stripChars, dropWhile_append_one isSlash a h]

/-- A character list that starts with `http:` cannot start with
`https://`. -/
lemma no_https_after_http_colon (cs : List Char) :
    leadsWith httpsPrefChars ('h' :: 't' :: 't' :: 'p' :: ':' :: cs) = false := by
  simp [httpsPrefChars, leadsWith]

/-- The stored URL of a schemeless configuration, at character level:
`http://` prefix survives the trailing-slash strip. -/
lemma normalizedUrl_data_of_schemeless (url : String) (h : schemeMatch url = false) :
    (OdooClient.normalizedUrl url).data =
      'h' :: 't' :: 't' :: 'p' :: ':' :: stripChars ('/' :: '/' :: url.data) := by
  show (stripTrailingSlashes (ensureScheme url)).data = _
  rw [ensureScheme, h]
  show stripChars ('h' :: 't' :: 't' :: 'p' :: ':' :: '/' :: '/' :: url.data) = _
  rw [stripChars_cons 'h' (by decide), stripChars_cons 't' (by decide),
    stripChars_cons 't' (by decide), stripChars_cons 'p' (by decide),
    stripChars_cons ':' (by decide)]

/-! ### Claim C1 -/

/-- C1: against a server whose every attempt answers with a redirect
status (301, 302, 303, 307 or 308) carrying a truthy location header,
the redirect-aware transport (with its fixed `max_redirects=5` bound)
fails with the `TooManyRedirects` protocol error after exactly 5
request attempts. -/
theorem redirect_bound_exactly_five (server : Nat → HttpAttemptOutcome)
    (h : ∀ n, ∃ c loc, server n = HttpAttemptOutcome.protocolError c loc ∧
      isRedirectCode c = true ∧ locationTruthy loc = true) :
    RedirectTransport.request server RedirectTransport.defaultMaxRedirects =
      (5, RequestResult.tooManyRedirects) := by
  have step : ∀ fuel attempts,
      requestGo server (fuel + 1) attempts = requestGo server fuel (attempts + 1) := by
    intro fuel attempts
    obtain ⟨c, loc, hs, hc, hl⟩ := h attempts
    simp [requestGo, hs, hc, hl]
  show requestGo server 5 0 = (5, RequestResult.tooManyRedirects)
  have e1 := step 4 0
  have e2 := step 3 1
  have e3 := step 2 2
  have e4 := step 1 3
  have e5 := step 0 4
  norm_num at e1 e2 e3 e4 e5
  rw [e1, e2, e3, e4, e5]
  rfl

/-- A server that redirects every attempt to a fixed mirror. -/
def alwaysRedirectServer : Nat → HttpAttemptOutcome :=
  fun _ => HttpAttemptOutcome.protocolError 302 (some "http://mirror.example/xmlrpc/2/common")

/-- C1 witness: the always-redirecting server makes the transport stop
with `TooManyRedirects` after exactly 5 attempts. -/
theorem redirect_bound_exactly_five_witness :
    RedirectTransport.request alwaysRedirectServer RedirectTransport.defaultMaxRedirects =
      (5, RequestResult.tooManyRedirects) :=
  redirect_bound_exactly_five alwaysRedirectServer
    (fun _ => ⟨302, some "http://mirror.example/xmlrpc/2/common", rfl, rfl, rfl⟩)

/-! ### Claim C6 -/

/-- C6: a falsy identity from `authenticate` makes client construction
fail with the invalid-credentials `ValueError`, with no `execute_kw`
call issued against the object endpoint; and among the nonnegative
integer identities the protocol can return, exactly the positive ones
are accepted. -/
theorem falsy_identity_rejected (uid : PyVal) (h : pyTruthy uid = false) :
    (OdooClient.initConnect (Except.ok uid)).result =
      Except.error (PyExc.valueError ("Failed to authenticate with Odoo: " ++ invalidCredsMsg)) ∧
    (OdooClient.initConnect (Except.ok uid)).objectCalls = [] ∧
    (∀ n : Int, 0 ≤ n →
      ((OdooClient.initConnect (Except.ok (PyVal.int n))).result = Except.ok (PyVal.int n) ↔
        0 < n)) := by
  refine ⟨?_, rfl, ?_⟩
  · simp [OdooClient.initConnect, OdooClient.connectAuth, h]
  · intro n hn
    by_cases h0 : n = 0
    · subst h0
      simp [OdooClient.initConnect, OdooClient.connectAuth, pyTruthy]
    · have ht : pyTruthy (PyVal.int n) = true := by
        simp [pyTruthy, bne_iff_ne]
        exact h0
      simp [OdooClient.initConnect, OdooClient.connectAuth, ht]
      omega

/-- C6 witness: identity 0 is rejected with the invalid-credentials
error and no object-endpoint call, while identity 7 is accepted. -/
theorem falsy_identity_rejected_witness :
    (OdooClient.initConnect (Except.ok (PyVal.int 0))).result =
      Except.error (PyExc.valueError ("Failed to authenticate with Odoo: " ++ invalidCredsMsg)) ∧
    (OdooClient.initConnect (Except.ok (PyVal.int 0))).objectCalls = [] ∧
    ((OdooClient.initConnect (Except.ok (PyVal.int 7))).result = Except.ok (PyVal.int 7) ↔
      0 < (7 : Int)) :=
  ⟨(falsy_identity_rejected (PyVal.int 0) (by decide)).1,
   (falsy_identity_rejected (PyVal.int 0) (by decide)).2.1,
   (falsy_identity_rejected (PyVal.int 0) (by decide)).2.2 7 (by decide)⟩

/-! ### Claim C7 -/

/-- C7: during the authentication exchange, every exception from the
network-layer family named in the first handler is remapped to
`ConnectionError` (the spec's `ConnectionFailed`), and every other
exception is remapped to `ValueError` (the spec's
`AuthenticationFailed`), each carrying the original message. -/
theorem auth_exceptions_remapped (e : PyExc) :
    (isNetworkExc e = true →
      (OdooClient.initConnect (Except.error e)).result =
        Except.error (PyExc.connectionError ("Failed to connect to Odoo server: " ++ e.message))) ∧
    (isNetworkExc e = false →
      (OdooClient.initConnect (Except.error e)).result =
        Except.error (PyExc.valueError ("Failed to authenticate with Odoo: " ++ e.message))) := by
  constructor <;> intro h <;> simp [OdooClient.initConnect, OdooClient.connectAuth, h]

/-- C7 witness: a socket timeout surfaces as `ConnectionError` and a
remote protocol error surfaces as `ValueError`. -/
theorem auth_exceptions_remapped_witness :
    (OdooClient.initConnect (Except.error (PyExc.socketTimeout "timed out"))).result =
      Except.error (PyExc.connectionError ("Failed to connect to Odoo server: " ++ "timed out")) ∧
    (OdooClient.initConnect (Except.error (PyExc.protocolError 500 "boom"))).result =
      Except.error (PyExc.valueError ("Failed to authenticate with Odoo: " ++ "boom")) :=
  ⟨(auth_exceptions_remapped (PyExc.socketTimeout "timed out")).1 rfl,
   (auth_exceptions_remapped (PyExc.protocolError 500 "boom")).2 rfl⟩

/-! ### Claim C8 -/

/-- C8: every remote invocation forwards exactly the tuple (database
name, cached identity, cached credential, object type, method name,
positional arguments, keyword arguments), in that fixed order, as the
arguments of the `execute_kw` call against the object endpoint. -/
theorem execute_forwards_fixed_tuple (server : RemoteCall → Except PyExc PyVal)
    (c : ClientState) (model method : String)
    (args : List PyVal) (kwargs : List (String × PyVal)) :
    OdooClient.execute_method server c model method args kwargs =
      server { db := c.db, uid := c.uid, password := c.password,
               model := model, method := method, args := args, kwargs := kwargs } :=
  rfl

/-! ### Claim C10 -/

/-- C10: a configuration URL that does not begin with `http://` or
`https://` is prefixed with the plain-text scheme `http://` (never
`https://`) and has its trailing slashes stripped; the resulting stored
URL is not an HTTPS URL, so the transport opens a plain (non-TLS)
connection regardless of the TLS-verification flag, and both endpoints
are derived from the stored URL. -/
theorem schemeless_url_gets_plain_http (url : String) (h : schemeMatch url = false) :
    OdooClient.normalizedUrl url = stripTrailingSlashes (String.mk (httpPrefChars ++ url.data)) ∧
    isHttpsUrl (OdooClient.normalizedUrl url) = false ∧
    (∀ verifySsl, makeConnection (isHttpsUrl (OdooClient.normalizedUrl url)) verifySsl =
      ConnKind.http) ∧
    OdooClient.commonEndpoint url = OdooClient.normalizedUrl url ++ "/xmlrpc/2/common" ∧
    OdooClient.objectEndpoint url = OdooClient.normalizedUrl url ++ "/xmlrpc/2/object" := by
  have hdata := normalizedUrl_data_of_schemeless url h
  have hfalse : isHttpsUrl (OdooClient.normalizedUrl url) = false := by
    rw [isHttpsUrl, hdata]
    exact no_https_after_http_colon _
  refine ⟨?_, hfalse, ?_, rfl, rfl⟩
  · simp [OdooClient.normalizedUrl, ensureScheme, h]
  · intro verifySsl
    rw [hfalse]
    rfl

/-- C10 witness: a schemeless host with a trailing slash is stored as
a plain `http://` URL and connects without TLS. -/
theorem schemeless_url_gets_plain_http_witness :
    OdooClient.normalizedUrl "erp.example.com/" =
      stripTrailingSlashes (String.mk (httpPrefChars ++ "erp.example.com/".data)) ∧
    isHttpsUrl (OdooClient.normalizedUrl "erp.example.com/") = false ∧
    makeConnection (isHttpsUrl (OdooClient.normalizedUrl "erp.example.com/")) true =
      ConnKind.http :=
  ⟨(schemeless_url_gets_plain_http "erp.example.com/" (by decide)).1,
   (schemeless_url_gets_plain_http "erp.example.com/" (by decide)).2.1,
   (schemeless_url_gets_plain_http "erp.example.com/" (by decide)).2.2.1 true⟩

/-! ### Normalizer lemmas -/

/-- `normOk` is unaffected by the final validation map. -/
lemma normOk_map (f : List PyVal → List PyVal) (e : Except PyErr (List PyVal)) :
    normOk (Except.map f e) = normOk e := by
  cases e <;> rfl

/-- Every element surviving the final validation pass is a marker or a
well-formed triple. -/
lemma mem_validateDomain {e : PyVal} {l : List PyVal} (h : e ∈ validateDomain l) :
    (isMarker e || isValidCond e) = true := by
  unfold validateDomain at h
  split at h
  · rename_i hemp
    rw [List.isEmpty_iff.mp hemp] at h
    simp at h
  · exact (List.mem_filter.mp h).2

/-- The final validation pass keeps a fully canonical expression
unchanged. -/
lemma validateDomain_eq_self (l : List PyVal) (h : l.all canonicalElem = true) :
    validateDomain l = l := by
  unfold validateDomain
  split
  · rfl
  · exact List.filter_eq_self.mpr (fun x hx => List.all_eq_true.mp h x hx)

/-- A canonical element that is not a marker is a Python list (a
well-formed triple). -/
lemma canonical_not_marker_isPyList (z : PyVal) (hc : canonicalElem z = true)
    (hm : isMarker z = false) : isPyList z = true := by
  cases z <;> simp_all [canonicalElem, isMarker, isValidCond, isPyList]

/-- Shape inversion for the triple check: a list passing `isValidCond`
is exactly `[field, operator, value]` with string field and operator. -/
lemma isValidCond_shape (ys : List PyVal) (h : isValidCond (PyVal.list ys) = true) :
    ∃ s1 s2 v, ys = [PyVal.str s1, PyVal.str s2, v] := by
  rcases ys with _ | ⟨a, _ | ⟨b, _ | ⟨c, _ | ⟨d, tl⟩⟩⟩⟩
  · simp [isValidCond] at h
  · simp [isValidCond] at h
  · simp [isValidCond] at h
  · cases a <;> try simp [isValidCond] at h
    case str s1 =>
      cases b <;> try simp [isValidCond] at h
      case str s2 => exact ⟨s1, s2, c, rfl⟩
  · simp [isValidCond] at h

/-- The unwrap step always turns a list input into a list. -/
lemma unwrap_list_shape (xs : List PyVal) :
    ∃ ys, unwrapDomain (PyVal.list xs) = PyVal.list ys := by
  rcases xs with _ | ⟨x, _ | ⟨y, r⟩⟩
  · exact ⟨[], rfl⟩
  · cases x <;> exact ⟨_, rfl⟩
  · exact ⟨x :: y :: r, rfl⟩

/-- The list arm of the dispatch never raises. -/
lemma dispatch_list_ok (ys : List PyVal) :
    normOk (dispatchDomain (PyVal.list ys)) = true := by
  simp only [dispatchDomain]
  split_ifs <;> rfl

/-- Reading an iterable `conditions` value never raises. -/
lemma conditions_read_ok (cnd : PyVal) (h : iterablePy cnd = true) :
    normOk ((pyIter cnd).map extractConditions) = true := by
  cases cnd <;> simp_all [iterablePy, pyIter, normOk, Except.map]

/-! ### Claim C2 -/

/-- C2 (amended): the normalization block returns a filter-expression
list without raising on every input except a mapping — given directly
or decoded from a strict-JSON string — whose `conditions` value is not
iterable (there it raises `TypeError`); and every string failing both
the strict JSON parse and the literal-syntax parse normalizes to the
empty expression. -/
theorem normalizer_totality :
    (∀ d, condOk d = true → normOk (normalizeDomain d) = true) ∧
    (∀ s, jsonParse s = Option.none → astLiteralEval s = Option.none →
      normalizeDomain (PyVal.str s) = Except.ok []) := by
  constructor
  · intro d h
    rw [normalizeDomain, normOk_map]
    cases d with
    | list xs =>
      obtain ⟨ys, hy⟩ := unwrap_list_shape xs
      rw [hy]
      exact dispatch_list_ok ys
    | dict kvs =>
      show normOk (dispatchDomain (PyVal.dict kvs)) = true
      simp only [dispatchDomain]
      cases hg : pyGet kvs "conditions" with
      | none => rfl
      | some cnd =>
        simp only [condOk, hg] at h
        exact conditions_read_ok cnd h
    | str s =>
      show normOk (dispatchDomain (PyVal.str s)) = true
      simp only [dispatchDomain]
      cases hj : jsonParse s with
      | none =>
        cases ha : astLiteralEval s with
        | none => rfl
        | some v => cases v <;> rfl
      | some pv =>
        cases pv with
        | dict kvs =>
          show normOk (match pyGet kvs "conditions" with
            | some conds => Except.map extractConditions (pyIter conds)
            | Option.none => Except.ok []) = true
          cases hg : pyGet kvs "conditions" with
          | none => rfl
          | some cnd =>
            simp only [condOk, hj, hg] at h
            exact conditions_read_ok cnd h
        | _ => rfl
    | _ => rfl
  · intro s h1 h2
    have hd : dispatchDomain (unwrapDomain (PyVal.str s)) = Except.ok [] := by
      show dispatchDomain (PyVal.str s) = Except.ok []
      simp [dispatchDomain, h1, h2]
    rw [normalizeDomain, hd]
    rfl

/-- C2 witness: an object-form filter with an iterable `conditions`
value normalizes without raising, and an unparseable string normalizes
to the empty expression. -/
theorem normalizer_totality_witness :
    normOk (normalizeDomain (PyVal.dict [("conditions", PyVal.list [])])) = true ∧
    normalizeDomain (PyVal.str "not a filter (((") = Except.ok [] :=
  ⟨normalizer_totality.1 (PyVal.dict [("conditions", PyVal.list [])]) rfl,
   normalizer_totality.2 "not a filter (((" rfl rfl⟩

/-- C2 counterexample: the claim's totality fails as stated — a mapping
whose `conditions` value is the integer 1 makes the block iterate a
non-iterable and raise `TypeError` instead of returning a list. -/
theorem normalizer_totality_counterexample :
    normalizeDomain (PyVal.dict [("conditions", PyVal.int 1)]) =
      Except.error PyErr.typeError := rfl

/-! ### Claim C3 -/

/-- C3: whenever the normalization block returns an expression, every
element of it is a recognized logical-operator marker or a 3-element
list whose first two elements are strings; the final validation pass
runs on every successful path, including pass-through of
already-canonical input, so malformed elements are pruned. -/
theorem output_elements_validated (d : PyVal) (l : List PyVal)
    (h : normalizeDomain d = Except.ok l) :
    ∀ e ∈ l, (isMarker e || isValidCond e) = true := by
  intro e he
  rw [normalizeDomain] at h
  cases hd : dispatchDomain (unwrapDomain d) with
  | error err => rw [hd] at h; simp [Except.map] at h
  | ok l0 =>
    rw [hd] at h
    simp only [Except.map] at h
    have hl : validateDomain l0 = l := by
      injection h
    rw [← hl] at he
    exact mem_validateDomain he

/-- C3 witness: a pass-through list (every element a list) still has
its malformed one-element member pruned, and the surviving element is
a well-formed triple. -/
theorem output_elements_validated_witness :
    (isMarker (PyVal.list [PyVal.str "a", PyVal.str "=", PyVal.int 1]) ||
      isValidCond (PyVal.list [PyVal.str "a", PyVal.str "=", PyVal.int 1])) = true :=
  output_elements_validated
    (PyVal.list [PyVal.list [PyVal.str "a", PyVal.str "=", PyVal.int 1],
      PyVal.list [PyVal.str "junk"]])
    [PyVal.list [PyVal.str "a", PyVal.str "=", PyVal.int 1]]
    rfl
    (PyVal.list [PyVal.str "a", PyVal.str "=", PyVal.int 1])
    (by simp)

/-- The central canonical-input lemma: a list whose every element is a
marker or a well-formed triple, and which is not a sole triple
containing a marker string among its components, normalizes to itself. -/
lemma normalizeDomain_canonical (E : List PyVal) (h1 : E.all canonicalElem = true)
    (h2 : soleTripleNoMarker E = true) :
    normalizeDomain (PyVal.list E) = Except.ok E := by
  rcases E with _ | ⟨x, rest⟩
  · rfl
  rcases rest with _ | ⟨y, rest2⟩
  · have hx : canonicalElem x = true := List.all_eq_true.mp h1 x (by simp)
    cases x with
    | str s =>
      have hm : isMarker (PyVal.str s) = true := by
        simpa [canonicalElem, isValidCond] using hx
      have hd : dispatchDomain (PyVal.list [PyVal.str s]) = Except.ok [PyVal.str s] := by
        simp [dispatchDomain, hm]
      show (dispatchDomain (PyVal.list [PyVal.str s])).map validateDomain =
        Except.ok [PyVal.str s]
      rw [hd]
      show Except.ok (validateDomain [PyVal.str s]) = Except.ok [PyVal.str s]
      rw [validateDomain_eq_self _ (by simp [canonicalElem, hm])]
    | list ys =>
      have hvc : isValidCond (PyVal.list ys) = true := by
        simpa [canonicalElem, isMarker] using hx
      obtain ⟨s1, s2, v, rfl⟩ := isValidCond_shape ys hvc
      have h2' : ([PyVal.str s1, PyVal.str s2, v].all (fun z => !isMarker z)) = true := by
        simpa [soleTripleNoMarker] using h2
      have hns : ∀ z ∈ [PyVal.str s1, PyVal.str s2, v], isMarker z = false := by
        intro z hz
        simpa using List.all_eq_true.mp h2' z hz
      have n1 := hns (PyVal.str s1) (by simp)
      have n2 := hns (PyVal.str s2) (by simp)
      have n3 := hns v (by simp)
      have hd : dispatchDomain (PyVal.list [PyVal.str s1, PyVal.str s2, v]) =
          Except.ok [PyVal.list [PyVal.str s1, PyVal.str s2, v]] := by
        simp [dispatchDomain, n1, n2, n3, headIsStr, isPyList]
      show (dispatchDomain (PyVal.list [PyVal.str s1, PyVal.str s2, v])).map validateDomain =
        Except.ok [PyVal.list [PyVal.str s1, PyVal.str s2, v]]
      rw [hd]
      show Except.ok (validateDomain [PyVal.list [PyVal.str s1, PyVal.str s2, v]]) =
        Except.ok [PyVal.list [PyVal.str s1, PyVal.str s2, v]]
      rw [validateDomain_eq_self _ (by simp [canonicalElem, isValidCond])]
    | _ => simp [canonicalElem, isMarker, isValidCond] at hx
  · have hcanon : ∀ z ∈ x :: y :: rest2, canonicalElem z = true := List.all_eq_true.mp h1
    have hd : dispatchDomain (PyVal.list (x :: y :: rest2)) = Except.ok (x :: y :: rest2) := by
      by_cases hany : ((x :: y :: rest2).any isMarker) = true
      · simp [dispatchDomain, hany]
      · have hall : ((x :: y :: rest2).all isPyList) = true := by
          rw [List.all_eq_true]
          intro z hz
          have hmz : isMarker z = false := by
            cases hb : isMarker z
            · rfl
            · exact absurd (List.any_eq_true.mpr ⟨z, hz, hb⟩) hany
          exact canonical_not_marker_isPyList z (hcanon z hz) hmz
        simp [dispatchDomain, hall]
    show (dispatchDomain (PyVal.list (x :: y :: rest2))).map validateDomain =
      Except.ok (x :: y :: rest2)
    rw [hd]
    show Except.ok (validateDomain (x :: y :: rest2)) = Except.ok (x :: y :: rest2)
    rw [validateDomain_eq_self _ h1]

/-! ### Claim C4 -/

/-- C4 (amended): an already-canonical filter expression normalizes to
itself — elements unchanged, order preserved — provided it is not a
one-element expression whose sole triple carries a logical-operator
marker string among its components (that shape is mangled by the
unwrap step, see the counterexample). -/
theorem canonical_idempotent (E : List PyVal) (h1 : E.all canonicalElem = true)
    (h2 : soleTripleNoMarker E = true) :
    normalizeDomain (PyVal.list E) = Except.ok E :=
  normalizeDomain_canonical E h1 h2

/-- C4 witness: a three-element canonical expression with a marker and
two triples is returned unchanged. -/
theorem canonical_idempotent_witness :
    normalizeDomain (PyVal.list [PyVal.str "|",
      PyVal.list [PyVal.str "a", PyVal.str "=", PyVal.int 1],
      PyVal.list [PyVal.str "b", PyVal.str "!=", PyVal.none]]) =
    Except.ok [PyVal.str "|",
      PyVal.list [PyVal.str "a", PyVal.str "=", PyVal.int 1],
      PyVal.list [PyVal.str "b", PyVal.str "!=", PyVal.none]] :=
  canonical_idempotent
    [PyVal.str "|",
      PyVal.list [PyVal.str "a", PyVal.str "=", PyVal.int 1],
      PyVal.list [PyVal.str "b", PyVal.str "!=", PyVal.none]]
    (by decide) (by decide)

/-- C4 counterexample: the claim fails as stated on the canonical
one-element expression whose triple has the marker string as its field
name: the unwrap step exposes the bare triple, the marker test routes
it through pass-through, and validation then prunes it to just the
marker. -/
theorem canonical_idempotent_counterexample :
    normalizeDomain (PyVal.list [PyVal.list [PyVal.str "&", PyVal.str "=", PyVal.int 5]]) =
      Except.ok [PyVal.str "&"] ∧
    (Except.ok [PyVal.str "&"] : Except PyErr (List PyVal)) ≠
      Except.ok [PyVal.list [PyVal.str "&", PyVal.str "=", PyVal.int 5]] := by
  refine ⟨rfl, ?_⟩
  intro hcontra
  injection hcontra with h1
  injection h1 with h2 _
  exact PyVal.noConfusion h2

/-! ### Claim C5 -/

/-- C5 (amended): a strict-JSON string whose decoded value is an
already-canonical sequence (not a sole triple holding a marker string)
normalizes identically to its decoded equivalent, and a strict-JSON
string of an object-form mapping normalizes identically to the decoded
mapping; the parsed value is only passed through the final validation
pass, not through the sequence-shape rules (bare-triple wrapping and
unwrapping), so the equivalence does not extend to those shapes (see
the counterexample). -/
theorem string_roundtrip_canonical :
    (∀ s E, jsonParse s = some (PyVal.list E) → E.all canonicalElem = true →
      soleTripleNoMarker E = true →
      normalizeDomain (PyVal.str s) = normalizeDomain (PyVal.list E)) ∧
    (∀ s kvs, jsonParse s = some (PyVal.dict kvs) →
      normalizeDomain (PyVal.str s) = normalizeDomain (PyVal.dict kvs)) := by
  constructor
  · intro s E hj h1 h2
    have hstr : normalizeDomain (PyVal.str s) = Except.ok (validateDomain E) := by
      rw [normalizeDomain]
      show (dispatchDomain (PyVal.str s)).map validateDomain = Except.ok (validateDomain E)
      simp only [dispatchDomain, hj]
      rfl
    rw [hstr, validateDomain_eq_self E h1, normalizeDomain_canonical E h1 h2]
  · intro s kvs hj
    rw [normalizeDomain, normalizeDomain]
    show (dispatchDomain (PyVal.str s)).map validateDomain =
      (dispatchDomain (PyVal.dict kvs)).map validateDomain
    congr 1
    simp only [dispatchDomain, hj]

/-- C5 witness: the JSON encoding of a one-condition canonical filter
normalizes exactly like the decoded filter. -/
theorem string_roundtrip_canonical_witness :
    normalizeDomain (PyVal.str "[[\"a\", \"=\", 1]]") =
      normalizeDomain (PyVal.list [PyVal.list [PyVal.str "a", PyVal.str "=", PyVal.int 1]]) :=
  string_roundtrip_canonical.1 "[[\"a\", \"=\", 1]]"
    [PyVal.list [PyVal.str "a", PyVal.str "=", PyVal.int 1]]
    rfl (by decide) (by decide)

/-- C5 counterexample: the claim fails as stated on the JSON encoding
of a bare triple — a valid filter per rule 4 — because the parsed list
is not recursed through the bare-triple wrapping: the string normalizes
to the empty expression while its decoded value normalizes to the
wrapped triple. -/
theorem string_roundtrip_counterexample :
    normalizeDomain (PyVal.str "[\"a\", \"=\", 1]") = Except.ok [] ∧
    normalizeDomain (PyVal.list [PyVal.str "a", PyVal.str "=", PyVal.int 1]) =
      Except.ok [PyVal.list [PyVal.str "a", PyVal.str "=", PyVal.int 1]] ∧
    (Except.ok [] : Except PyErr (List PyVal)) ≠
      Except.ok [PyVal.list [PyVal.str "a", PyVal.str "=", PyVal.int 1]] := by
  refine ⟨rfl, rfl, ?_⟩
  intro hcontra
  injection hcontra with h1
  exact List.noConfusion h1

/-! ### Claim C9 -/

/-- C9 (amended): `execute_method` propagates a remote fault to the
caller verbatim — unchanged, with no object-type or method context
added — while `search_read` catches every fault and returns the empty
list instead of propagating it. -/
theorem invoker_fault_passthrough :
    (∀ (server : RemoteCall → Except PyExc PyVal) (c : ClientState)
        (model method : String) (args : List PyVal) (kwargs : List (String × PyVal))
        (e : PyExc),
      server { db := c.db, uid := c.uid, password := c.password, model := model,
               method := method, args := args, kwargs := kwargs } = Except.error e →
      OdooClient.execute_method server c model method args kwargs = Except.error e) ∧
    (∀ (server : RemoteCall → Except PyExc PyVal) (c : ClientState)
        (model_name : String) (domain : PyVal) (fields : Option PyVal) (offset : PyVal)
        (limit : Option PyVal) (order : Option PyVal) (e : PyExc),
      server { db := c.db, uid := c.uid, password := c.password, model := model_name,
               method := "search_read",
               args := [domain, PyVal.dict (searchReadKwargs fields offset limit order)],
               kwargs := [] } = Except.error e →
      OdooClient.search_read server c model_name domain fields offset limit order =
        PyVal.list []) := by
  constructor
  · intro server c model method args kwargs e h
    exact h
  · intro server c model_name domain fields offset limit order e h
    unfold OdooClient.search_read OdooClient.executeRPC
    rw [h]

/-- A server whose every call raises a remote fault. -/
def failingServer : RemoteCall → Except PyExc PyVal :=
  fun _ => Except.error (PyExc.protocolError 500 "Internal Server Error")

/-- A connected client state. -/
def demoClient : ClientState :=
  { db := "odoo", uid := PyVal.int 2, password := "secret" }

/-- C9 witness: against the always-faulting server, `execute_method`
surfaces the fault unchanged and `search_read` returns the empty list. -/
theorem invoker_fault_passthrough_witness :
    OdooClient.execute_method failingServer demoClient "res.partner" "read" [] [] =
      Except.error (PyExc.protocolError 500 "Internal Server Error") ∧
    OdooClient.search_read failingServer demoClient "res.partner" (PyVal.list [])
      Option.none (PyVal.int 0) Option.none Option.none = PyVal.list [] :=
  ⟨invoker_fault_passthrough.1 failingServer demoClient "res.partner" "read" [] []
      (PyExc.protocolError 500 "Internal Server Error") rfl,
   invoker_fault_passthrough.2 failingServer demoClient "res.partner" (PyVal.list [])
      Option.none (PyVal.int 0) Option.none Option.none
      (PyExc.protocolError 500 "Internal Server Error") rfl⟩

/-- C9 counterexample: the claim fails as stated — the remote fault of
a `search_read` invocation is swallowed (the caller gets a bare empty
list, no error), and the fault `execute_method` propagates carries no
object-type/method wrapping (its message is exactly the remote one). -/
theorem invoker_fault_swallowed_counterexample :
    failingServer { db := demoClient.db, uid := demoClient.uid,
                    password := demoClient.password, model := "res.partner",
                    method := "search_read",
                    args := [PyVal.list [], PyVal.dict (searchReadKwargs Option.none
                      (PyVal.int 0) Option.none Option.none)],
                    kwargs := [] } =
      Except.error (PyExc.protocolError 500 "Internal Server Error") ∧
    OdooClient.search_read failingServer demoClient "res.partner" (PyVal.list [])
      Option.none (PyVal.int 0) Option.none Option.none = PyVal.list [] ∧
    OdooClient.execute_method failingServer demoClient "res.partner" "read" [] [] =
      Except.error (PyExc.protocolError 500 "Internal Server Error") :=
  ⟨rfl, rfl, rfl⟩

/-- A server that answers with the method name it received, making the
forwarded call observable. -/
def echoServer : RemoteCall → Except PyExc PyVal :=
  fun call => Except.ok (PyVal.str call.method)

/-- C8 witness: a concrete invocation reaches the object endpoint as
exactly the fixed seven-argument tuple. -/
theorem execute_forwards_fixed_tuple_witness :
    OdooClient.execute_method echoServer demoClient "res.partner" "read"
      [PyVal.list [PyVal.int 1]] [] = Except.ok (PyVal.str "read") :=
  (execute_forwards_fixed_tuple echoServer demoClient "res.partner" "read"
    [PyVal.list [PyVal.int 1]] []).trans rfl
